import Mathlib

/-!
Shallow embedding of the upload-session core of the Rumble-Bot repository
(src/src/rumble_uploader.py, class RumbleUploader).  The browser driven by
Selenium is an external collaborator: its observable behaviour (URLs reported
after navigations, page sources, which selectors match elements) is supplied
as explicit environment data, and the Python control flow over those
observations is translated into executable Lean functions.  Every branch
condition is translated from the Python source; the environments record the
outcomes of driver calls that the Python wraps in try/except.
-/

namespace RumbleBot

/-- Boolean prefix test on character lists. -/
def listPrefixOf : List Char → List Char → Bool
  | [], _ => true
  | _ :: _, [] => false
  | a :: as, b :: bs => a == b && listPrefixOf as bs

/-- Boolean contiguous-sublist test, scanning every suffix of the haystack. -/
def subList (needle : List Char) : List Char → Bool
  | [] => listPrefixOf needle []
  | b :: bs => listPrefixOf needle (b :: bs) || subList needle bs

/-- Python `needle in hay` on strings: substring containment. -/
def containsSub (hay needle : String) : Bool :=
  subList needle.toList hay.toList

/-- ASCII lower-casing of one character (all strings in the modelled code are ASCII). -/
def asciiLower (c : Char) : Char :=
  if 65 ≤ c.toNat ∧ c.toNat ≤ 90 then Char.ofNat (c.toNat + 32) else c

/-- Python `s.lower()` on the ASCII strings used by the uploader. -/
def strLower (s : String) : String :=
  String.mk (s.toList.map asciiLower)

/-! ## Authenticator: cookies and login
Model of `save_cookies` / `load_cookies` / `check_login_status` / `login`
(rumble_uploader.py lines 79-259).  Setting up the Chrome driver, and locating
the username and password fields, are assumed to succeed; the cookie file
contents, the URLs the driver reports, and whether a login-button selector
matches are environment data. -/

/-- Cookie record from the cookie cache file.  `hasNameValue`: both the name
and the value keys are present (line 114); `addable`: `driver.add_cookie`
accepts it (the Python catches a per-cookie exception otherwise, line 117). -/
structure Cookie where
  hasNameValue : Bool
  addable : Bool
deriving DecidableEq

/-- Environment observed by the authenticator. -/
structure LoginEnv where
  /-- Contents of `rumble_cookies.json`: `none` when the file does not exist,
  `some []` when it is empty (lines 93-102). -/
  cookieFile : Option (List Cookie)
  /-- URL the driver reports after navigating to the upload page inside
  `check_login_status` (line 135). -/
  uploadPageUrl : String
  /-- Whether any of the five login-button selectors matches (lines 218-232). -/
  loginButtonFound : Bool
  /-- URL the driver reports after the login button is clicked (line 244). -/
  postSubmitUrl : String

/-- Browser operations performed during authentication, in order. -/
inductive LoginEv where
  | navigateBase
  | addCookie
  | navigateUpload
  | navigateLoginPage
  | enterCredentials
  | clickLoginButton
  | saveCookies
deriving DecidableEq

/-- Model of `load_cookies` (lines 90-125): missing or empty file yields
false with no navigation; otherwise the driver opens the base URL, every
cookie with name and value is offered to the driver, and the call succeeds
when at least one cookie was added. -/
def load_cookies (env : LoginEnv) : Bool × List LoginEv :=
  match env.cookieFile with
  | none => (false, [])
  | some cookies =>
    if cookies.isEmpty then (false, [])
    else
      let added := (cookies.filter (fun c => c.hasNameValue && c.addable)).length
      (decide (added > 0), LoginEv.navigateBase :: List.replicate added LoginEv.addCookie)

/-- Model of `check_login_status` (lines 127-146): navigate to the upload URL
and declare the session logged in exactly when the lowered current URL
contains neither a login marker nor the auth domain (line 136). -/
def check_login_status (env : LoginEnv) : Bool × List LoginEv :=
  let u := strLower env.uploadPageUrl
  if containsSub u "login" || containsSub u "auth.rumble.com" then
    (false, [LoginEv.navigateUpload])
  else
    (true, [LoginEv.navigateUpload])

/-- Post-submit URL test of `login` (line 245), applied to the lowered URL:
`("auth.rumble.com" not in url and "login" not in url) or "rumble.com" in url`.
The second disjunct accepts every URL that mentions rumble.com, including the
auth domain itself. -/
def loginSuccessCheck (url : String) : Bool :=
  (!containsSub url "auth.rumble.com" && !containsSub url "login")
    || containsSub url "rumble.com"

/-- Fresh-credential path of `login` (lines 199-255): navigate to the login
page, fill both credential fields, click the first matching login button
(raising, hence returning false, when none matches), then apply
`loginSuccessCheck` to the lowered post-submit URL; on success the cookies
are saved. -/
def freshLogin (env : LoginEnv) (evs : List LoginEv) : Bool × List LoginEv :=
  let evs := evs ++ [LoginEv.navigateLoginPage, LoginEv.enterCredentials]
  if !env.loginButtonFound then (false, evs)
  else
    let evs := evs ++ [LoginEv.clickLoginButton]
    if loginSuccessCheck (strLower env.postSubmitUrl) then
      (true, evs ++ [LoginEv.saveCookies])
    else (false, evs)

/-- Model of `login` (lines 183-259): try the cookie cache first and return
true without touching the credential fields when `check_login_status`
accepts; otherwise fall back to the fresh-credential path. -/
def login (env : LoginEnv) : Bool × List LoginEv :=
  if (load_cookies env).1 then
    if (check_login_status env).1 then
      (true, (load_cookies env).2 ++ (check_login_status env).2)
    else
      freshLogin env ((load_cookies env).2 ++ (check_login_status env).2)
  else
    freshLogin env (load_cookies env).2

/-- Events of two successive `login` calls.  The cookie-restore path neither
rewrites the cookie file nor changes any state read by `login`, so the second
call observes the same environment. -/
def loginTwiceEvents (env : LoginEnv) : List LoginEv :=
  (login env).2 ++ (login env).2

/-! ## Visibility selection
Model of `_set_visibility` (lines 796-862).  The Python tries four radio
selectors, then three dropdown selectors; every selector failure is caught
and the method falls through to `return True` (line 858), so in the absence
of a driver-level exception the method always reports success.  Whether the
dropdown select calls succeed only changes logging, never the result or
whether an interaction was attempted, so only the presence of displayed
controls is recorded. -/

/-- Which visibility controls the upload page offers. -/
structure VisibilityPage where
  /-- Some radio selector (lines 802-807) matches a displayed element. -/
  radioDisplayed : Bool
  /-- Some dropdown selector (lines 825-829) matches a displayed element. -/
  dropdownDisplayed : Bool
deriving DecidableEq

/-- Visibility interactions attempted on the page. -/
inductive VisEv where
  | clickRadio
  | selectDropdown
deriving DecidableEq

/-- Model of `_set_visibility`: click the first displayed radio (lines
809-822), otherwise drive the first displayed dropdown (lines 831-854),
otherwise return true with no interaction at all (lines 856-858). -/
def set_visibility (p : VisibilityPage) : Bool × List VisEv :=
  if p.radioDisplayed then (true, [VisEv.clickRadio])
  else if p.dropdownDisplayed then (true, [VisEv.selectDropdown])
  else (true, [])

/-! ## Outcome detection
Model of `_detect_upload_success` (lines 1138-1292).  The driver state
observed at each poll attempt is a `Snapshot`.  Python calls into the `re`
module (an external library) to run two `findall` patterns over the page
source; the match lists those calls return are carried in the snapshot. -/

/-- Driver state observed during one detection attempt. -/
structure Snapshot where
  /-- `driver.current_url` (line 1149). -/
  url : String
  /-- `driver.title` (line 1150). -/
  title : String
  /-- `driver.page_source` (lines 1191 and 1229; same page state). -/
  source : String
  /-- Attribute href, value, or text of every element matched by the seven
  video-URL selectors (lines 1169-1185), in document order. -/
  hrefCandidates : List String
  /-- `re.findall` of the canonical `.html` video-URL pattern over the page
  source (lines 1199-1200 and 1238-1239). -/
  htmlPatternMatches : List String
  /-- `re.findall` of the broader video-URL pattern (lines 1209-1210). -/
  broaderPatternMatches : List String
deriving DecidableEq

/-- Success keywords checked against URL and title each attempt (line 1220). -/
def successKeywords : List String :=
  ["success", "uploaded", "complete", "published", "processing"]

/-- First href candidate that mentions both rumble.com and /v (line 1183). -/
def hrefHit (l : List String) : Option String :=
  l.find? (fun h => containsSub h "rumble.com" && containsSub h "/v")

/-- First regex match strictly longer than `n` characters (lines 1204, 1213). -/
def firstLongMatch (l : List String) (n : Nat) : Option String :=
  l.find? (fun m => decide (n < m.length))

/-- Outcome of one body of the detection loop. -/
inductive StepRes where
  | ret (url : String)
  | brk
  | cont
deriving DecidableEq

/-- Body of one detection attempt (lines 1149-1267), in source order:
return on a video-shaped URL, on a URL that moved off the upload page, on a
video href found in the page, or on a URL extracted from a
`Video Upload Complete!` page; then accumulate the weaker indicators and
return the current URL once two of them are present; break on an error
marker in URL or title, or when still on upload.php after attempt 5;
otherwise continue polling.  The membership test
`"Video URL detected" in success_indicators` of line 1256 is omitted: that
indicator is appended only immediately before the return on line 1160, so it
can never be in the list when line 1256 runs. -/
def detectStep (before s : Snapshot) (attempt : Nat) : StepRes :=
  if containsSub s.url "/v" && containsSub s.url "rumble.com" then
    StepRes.ret s.url
  else if s.url != before.url && !containsSub s.url "upload.php" then
    StepRes.ret s.url
  else
    match hrefHit s.hrefCandidates with
    | some h => StepRes.ret h
    | none =>
      let completeMarker := containsSub s.source "Video Upload Complete!"
      let extracted : Option String :=
        if completeMarker then
          match firstLongMatch s.htmlPatternMatches 30 with
          | some m => some m
          | none => firstLongMatch s.broaderPatternMatches 25
        else none
      match extracted with
      | some m => StepRes.ret m
      | none =>
        let c1 : Nat := if completeMarker then 1 else 0
        let c2 : Nat :=
          if successKeywords.any (fun k => containsSub (strLower s.url) k) then 1 else 0
        let c3 : Nat :=
          if successKeywords.any (fun k => containsSub (strLower s.title) k) then 1 else 0
        -- line 1232 searches the lower-case literal in the raw page source
        let lowMarker := containsSub s.source "video upload complete!"
        if lowMarker && !s.htmlPatternMatches.isEmpty then
          StepRes.ret (s.htmlPatternMatches.headD "")
        else
          let c4 : Nat := if lowMarker then 1 else 0
          let srcLower := strLower s.source
          let c5 : Nat :=
            if containsSub srcLower "upload successful" || containsSub srcLower "video uploaded"
            then 1 else 0
          let c6 : Nat := if containsSub srcLower "processing" then 1 else 0
          if 2 ≤ c1 + c2 + c3 + c4 + c5 + c6 then StepRes.ret s.url
          else if containsSub (strLower s.url) "error" || containsSub (strLower s.title) "error" then
            StepRes.brk
          else if containsSub s.url "upload.php" && decide (attempt > 5) then
            StepRes.brk
          else StepRes.cont

/-- How the detection loop stopped: an early return with a URL, or loop exit
(break or all attempts used) with the driver state seen last. -/
inductive LoopExit where
  | found (url : String)
  | stopped (last : Snapshot)
deriving DecidableEq

/-- The `for attempt in range(1, 11)` loop (lines 1146-1267) over the list of
remaining attempt indices.  `last` is the driver state observed most
recently, `done` counts the attempts executed so far; each executed attempt
sleeps once (3 seconds, line 1147) before inspecting the page. -/
def detectRun (before : Snapshot) (snaps : Nat → Snapshot) :
    Snapshot → Nat → List Nat → LoopExit × Nat
  | last, done, [] => (LoopExit.stopped last, done)
  | _, _, i :: rest =>
    match detectStep before (snaps i) i with
    | StepRes.ret u => (LoopExit.found u, i)
    | StepRes.brk => (LoopExit.stopped (snaps i), i)
    | StepRes.cont => detectRun before snaps (snaps i) i rest

/-- Final assessment after the loop (lines 1269-1288).  All three branches
return the current URL: a URL away from the upload page, a URL or title with
a success keyword (note the keyword list here drops `published`), and the
unclear case of line 1288 alike. -/
def finalAssessment (before last : Snapshot) : Option String :=
  if last.url != before.url && !containsSub last.url "upload.php" then
    some last.url
  else if (["success", "complete", "uploaded", "processing"]).any
      (fun k => containsSub (strLower last.url) k || containsSub (strLower last.title) k) then
    some last.url
  else
    some last.url

/-- Model of `_detect_upload_success`: run up to ten attempts, then apply the
final assessment when the loop did not return early.  The second component
counts the 3-second sleeps performed. -/
def detect_upload_success (before : Snapshot) (snaps : Nat → Snapshot) :
    Option String × Nat :=
  match detectRun before snaps before 0 [1, 2, 3, 4, 5, 6, 7, 8, 9, 10] with
  | (LoopExit.found u, n) => (some u, n)
  | (LoopExit.stopped last, n) => (finalAssessment before last, n)

/-! ## Ingest-ready wait
Model of `_wait_for_upload_completion` (lines 502-542): poll until a
completion indicator or an enabled title field appears, or until 120 seconds
have elapsed; each unsuccessful iteration sleeps a jittered 2-3 second
interval.  Inspection time is treated as zero, so elapsed time is the sum of
the sleeps.  `found i` merges the two checks of iteration `i`; `delay i` is
the jittered sleep the random generator produced for iteration `i`. -/

/-- The `while time.time() - start_time < max_wait_time` loop, with explicit
iteration fuel.  Returns whether an indicator was found together with the
elapsed time at exit; exhausted fuel returns the elapsed time unchanged
(shown unreachable for fuel 61 whenever every sleep lasts at least 2 s). -/
def wait_go (found : Nat → Bool) (delay : Nat → Nat) :
    Nat → Nat → Nat → Bool × Nat
  | 0, _, elapsed => (false, elapsed)
  | fuel + 1, i, elapsed =>
    if 120 ≤ elapsed then (false, elapsed)
    else if found i then (true, elapsed)
    else wait_go found delay fuel (i + 1) (elapsed + delay i)

/-- Model of `_wait_for_upload_completion`.  Fuel 61 suffices: sleeps last at
least 2 s, so at most 60 of them fit under the 120 s ceiling. -/
def wait_for_upload_completion (found : Nat → Bool) (delay : Nat → Nat) : Bool × Nat :=
  wait_go found delay 61 0 0

/-! ## Upload orchestrator
Model of `upload_video` (lines 261-373) and the submit and license stages it
drives (lines 972-1136, 1294-1318).  Results of the individual driver-backed
stages are environment data in `UploadWorld`; the orchestration logic over
them is translated from the Python. -/

/-- Environment of one `upload_video` run. -/
structure UploadWorld where
  /-- `self.is_logged_in` when `upload_video` starts (line 286). -/
  isLoggedIn : Bool
  /-- Environment of the `login` call made when not yet logged in. -/
  loginEnv : LoginEnv
  /-- Result of `_navigate_to_upload_page` (lines 375-436), which may itself
  retry login once; collapsed to its boolean outcome. -/
  navOk : Bool
  /-- Whether the video path names an existing local file.  `upload_video`
  never reads it; the driver raises on `send_keys` of a missing path, which
  `_upload_file` catches and converts to a false return (lines 482-500). -/
  fileExists : Bool
  /-- A usable (enabled, non-thumbnail) file input was located
  (lines 447-475). -/
  fileInputFound : Bool
  /-- Indicator or enabled-title-field observations of the ingest wait. -/
  ingestFound : Nat → Bool
  /-- Jittered sleeps of the ingest wait, per iteration. -/
  ingestDelay : Nat → Nat
  /-- Result of `_select_category_text_input` (line 312). -/
  categoryOk : Bool
  /-- Result of `_select_upload_destination` (line 319). -/
  channelOk : Bool
  /-- Visibility controls present on the page (line 326). -/
  visPage : VisibilityPage
  /-- The title field was located and accepted the text (lines 864-875). -/
  titleOk : Bool
  /-- Description argument (line 336 fills it only when non-empty). -/
  description : String
  /-- Tags argument (line 343 fills them only when non-empty). -/
  tags : List String
  /-- An enabled upload submit button was located (lines 978-994). -/
  uploadButtonFound : Bool
  /-- Page source after the upload button click (line 1027). -/
  licenseSource : String
  /-- An enabled final submit control was located on the license page
  (lines 1094-1107). -/
  licenseSubmitFound : Bool
  /-- Driver state when `_detect_upload_success` starts (line 1141). -/
  before : Snapshot
  /-- Driver state at each detection attempt. -/
  snaps : Nat → Snapshot
  /-- `self.driver.current_url` read in the degraded-success branch
  (line 361). -/
  currentUrl : String
  /-- Wall-clock duration of the run, recorded by the `finally` block
  (line 371). -/
  elapsed : Nat

/-- Operations of one `upload_video` run, in order. -/
inductive UpEv where
  | loginCall
  | navigateUploadPage
  | findFileInput
  | sendFileToInput
  | waitForCompletion
  | fillCategory
  | selectChannel
  | visibilityInteraction (e : VisEv)
  | fillTitle
  | fillDescription
  | fillTags
  | precheckBoxes
  | checkAgreementBox (id : String)
  | clickUploadButton
  | clickLicenseSubmit
  | detectOutcome
deriving DecidableEq

/-- The result dictionary of `upload_video` (lines 277-282). -/
structure UploadResultR where
  success : Bool
  url : Option String
  error : Option String
  duration : Nat
deriving DecidableEq

/-- Model of `_fill_title_only` (lines 864-875): true exactly when the title
field was found and accepted the text; every exception is caught and turned
into false. -/
def fill_title_only (titleFieldOk : Bool) : Bool :=
  titleFieldOk

/-- License-page content markers (lines 1028-1033). -/
def license_content_indicators : List String :=
  ["terms and conditions",
   "you have not signed an exclusive agreement",
   "check here if you agree to our",
   "terms of service"]

/-- Line 1035: the page is a license page when any marker occurs in the
lowered page source. -/
def isLicensePage (source : String) : Bool :=
  license_content_indicators.any (fun ind => containsSub (strLower source) ind)

/-- Model of `_handle_license_page_and_submit` (lines 1020-1136).  On a
license page both agreement checkboxes are driven best-effort (their
verification outcome only changes logging, lines 1044-1088), then the first
enabled final submit control is clicked and detection runs; without such a
control the method returns `None`.  Without license markers the method goes
straight to detection (lines 1130-1132). -/
def handle_license_page_and_submit (w : UploadWorld) : Option String × List UpEv :=
  if isLicensePage w.licenseSource then
    if w.licenseSubmitFound then
      ((detect_upload_success w.before w.snaps).1,
        [UpEv.checkAgreementBox "crights", UpEv.checkAgreementBox "cterms",
         UpEv.clickLicenseSubmit, UpEv.detectOutcome])
    else
      (none, [UpEv.checkAgreementBox "crights", UpEv.checkAgreementBox "cterms"])
  else
    ((detect_upload_success w.before w.snaps).1, [UpEv.detectOutcome])

/-- Model of `_submit_upload_and_handle_license` (lines 972-1018):
`_check_required_boxes` runs first (line 976; it clicks every unselected
checkbox on the form page, best-effort); then the first enabled upload
button is clicked and the license handler takes over; without a button the
method returns `None` (lines 996-998). -/
def submit_upload_and_handle_license (w : UploadWorld) : Option String × List UpEv :=
  if w.uploadButtonFound then
    ((handle_license_page_and_submit w).1,
      UpEv.precheckBoxes :: UpEv.clickUploadButton :: (handle_license_page_and_submit w).2)
  else (none, [UpEv.precheckBoxes])

/-- The `success_count` of the three priority fields (lines 308-330):
category, channel, and visibility each add one on success. -/
def priority_success_count (w : UploadWorld) : Nat :=
  (if w.categoryOk then 1 else 0) + (if w.channelOk then 1 else 0)
    + (if (set_visibility w.visPage).1 then 1 else 0)

/-- Model of `upload_video` (lines 261-373).  Stage order and early returns
follow the Python: login when needed, navigate, submit the file, wait for
ingest (result only logged, line 304), fill the priority fields counting
successes, fill title / description / tags best-effort (the title result is
discarded, line 333), submit and handle the license page, and finally map
`video_url` or the priority count to the result dictionary (lines 352-364).
The `finally` block always records the duration. -/
def upload_video (w : UploadWorld) : UploadResultR × List UpEv :=
  let evs0 : List UpEv := if w.isLoggedIn then [] else [UpEv.loginCall]
  if !w.isLoggedIn && !(login w.loginEnv).1 then
    ({ success := false, url := none, error := some "Failed to login to Rumble",
       duration := w.elapsed }, evs0)
  else if !w.navOk then
    ({ success := false, url := none, error := some "Failed to navigate to upload page",
       duration := w.elapsed }, evs0 ++ [UpEv.navigateUploadPage])
  else
    let fileEvs : List UpEv :=
      if w.fileInputFound then [UpEv.findFileInput, UpEv.sendFileToInput]
      else [UpEv.findFileInput]
    if !(w.fileInputFound && w.fileExists) then
      ({ success := false, url := none, error := some "Failed to upload video file",
         duration := w.elapsed }, evs0 ++ [UpEv.navigateUploadPage] ++ fileEvs)
    else
      let _ingest := wait_for_upload_completion w.ingestFound w.ingestDelay
      let _titleR := fill_title_only w.titleOk
      let metaEvs : List UpEv :=
        [UpEv.waitForCompletion, UpEv.fillCategory, UpEv.selectChannel]
          ++ (set_visibility w.visPage).2.map UpEv.visibilityInteraction
          ++ [UpEv.fillTitle]
          ++ (if w.description == "" then [] else [UpEv.fillDescription])
          ++ (if w.tags.isEmpty then [] else [UpEv.fillTags])
      let base := evs0 ++ [UpEv.navigateUploadPage] ++ fileEvs ++ metaEvs
        ++ (submit_upload_and_handle_license w).2
      match (submit_upload_and_handle_license w).1 with
      | some u =>
        ({ success := true, url := some u, error := none, duration := w.elapsed }, base)
      | none =>
        if 2 ≤ priority_success_count w then
          ({ success := true, url := some w.currentUrl, error := none,
             duration := w.elapsed }, base)
        else
          ({ success := false, url := none, error := some "Failed to complete upload process",
             duration := w.elapsed }, base)

/-! ## Concrete inputs used to instantiate the statements below -/

/-- Driver state that never shows a success signal, an error marker, or the
upload.php path: the URL stays on a processing page for the whole poll. -/
def quietSnap : Snapshot :=
  { url := "https://rumble.com/uploadstep", title := "Rumble", source := "",
    hrefCandidates := [], htmlPatternMatches := [], broaderPatternMatches := [] }

/-- Driver state showing a canonical video URL. -/
def videoSnap : Snapshot :=
  { url := "https://rumble.com/v12345-test.html", title := "Rumble", source := "",
    hrefCandidates := [], htmlPatternMatches := [], broaderPatternMatches := [] }

/-- Driver state with an explicit error marker in URL and title and no
success signal. -/
def errorSnap : Snapshot :=
  { url := "https://rumble.com/uploaderror", title := "Error", source := "",
    hrefCandidates := [], htmlPatternMatches := [], broaderPatternMatches := [] }

/-- Login environment of a run that never consults the authenticator. -/
def envUnused : LoginEnv :=
  { cookieFile := none, uploadPageUrl := "", loginButtonFound := true,
    postSubmitUrl := "" }

/-- Login environment of a login page that redirects back to itself: no
cookie cache, and after submitting credentials the driver still reports the
auth-domain login URL. -/
def envAuthLoop : LoginEnv :=
  { cookieFile := none, uploadPageUrl := "", loginButtonFound := true,
    postSubmitUrl := "https://auth.rumble.com/login" }

/-- Login environment with a valid cached session: one loadable cookie, and
the upload page loads without redirecting to a login URL. -/
def envCached : LoginEnv :=
  { cookieFile := some [{ hasNameValue := true, addable := true }],
    uploadPageUrl := "https://rumble.com/upload.php", loginButtonFound := true,
    postSubmitUrl := "" }

/-- Run in which every priority field except visibility fails, no license
page appears, and outcome detection sees `quietSnap` for all ten attempts. -/
def worldQuiet : UploadWorld :=
  { isLoggedIn := true, loginEnv := envUnused, navOk := true,
    fileExists := true, fileInputFound := true,
    ingestFound := fun _ => false, ingestDelay := fun _ => 2,
    categoryOk := false, channelOk := false,
    visPage := { radioDisplayed := false, dropdownDisplayed := false },
    titleOk := true, description := "", tags := [],
    uploadButtonFound := true, licenseSource := "", licenseSubmitFound := true,
    before := quietSnap, snaps := fun _ => quietSnap,
    currentUrl := "https://rumble.com/uploadstep", elapsed := 7 }

/-- Run whose video path names no existing file; everything up to the file
submission works. -/
def worldMissingFile : UploadWorld :=
  { isLoggedIn := true, loginEnv := envUnused, navOk := true,
    fileExists := false, fileInputFound := true,
    ingestFound := fun _ => false, ingestDelay := fun _ => 2,
    categoryOk := true, channelOk := true,
    visPage := { radioDisplayed := true, dropdownDisplayed := false },
    titleOk := true, description := "", tags := [],
    uploadButtonFound := true, licenseSource := "", licenseSubmitFound := true,
    before := quietSnap, snaps := fun _ => quietSnap,
    currentUrl := "https://rumble.com/upload.php", elapsed := 4 }

/-- Run in which the title field cannot be filled but detection finds a
canonical video URL at the first attempt. -/
def worldTitleFail : UploadWorld :=
  { isLoggedIn := true, loginEnv := envUnused, navOk := true,
    fileExists := true, fileInputFound := true,
    ingestFound := fun _ => false, ingestDelay := fun _ => 2,
    categoryOk := true, channelOk := true,
    visPage := { radioDisplayed := true, dropdownDisplayed := false },
    titleOk := false, description := "", tags := [],
    uploadButtonFound := true, licenseSource := "", licenseSubmitFound := true,
    before := quietSnap, snaps := fun _ => videoSnap,
    currentUrl := "https://rumble.com/upload.php", elapsed := 5 }

/-- Run in which the first detection attempt sees an explicit error marker in
URL and title. -/
def worldError : UploadWorld :=
  { isLoggedIn := true, loginEnv := envUnused, navOk := true,
    fileExists := true, fileInputFound := true,
    ingestFound := fun _ => false, ingestDelay := fun _ => 2,
    categoryOk := true, channelOk := true,
    visPage := { radioDisplayed := true, dropdownDisplayed := false },
    titleOk := true, description := "", tags := [],
    uploadButtonFound := true, licenseSource := "", licenseSubmitFound := true,
    before := errorSnap, snaps := fun _ => errorSnap,
    currentUrl := "https://rumble.com/uploaderror", elapsed := 9 }

/-! ## Helper lemmas -/

/-- Final assessment returns the current URL in each of its three branches. -/
lemma finalAssessment_eq (before last : Snapshot) :
    finalAssessment before last = some last.url := by
  unfold finalAssessment
  split
  · rfl
  · split <;> rfl

/-- When every attempt continues, the loop uses all ten attempts and stops
with the tenth driver state. -/
lemma detectRun_all_cont (before : Snapshot) (snaps : Nat → Snapshot)
    (h : ∀ i, 1 ≤ i → i ≤ 10 → detectStep before (snaps i) i = StepRes.cont) :
    detectRun before snaps before 0 [1, 2, 3, 4, 5, 6, 7, 8, 9, 10] =
      (LoopExit.stopped (snaps 10), 10) := by
  have h1 := h 1 (by norm_num) (by norm_num)
  have h2 := h 2 (by norm_num) (by norm_num)
  have h3 := h 3 (by norm_num) (by norm_num)
  have h4 := h 4 (by norm_num) (by norm_num)
  have h5 := h 5 (by norm_num) (by norm_num)
  have h6 := h 6 (by norm_num) (by norm_num)
  have h7 := h 7 (by norm_num) (by norm_num)
  have h8 := h 8 (by norm_num) (by norm_num)
  have h9 := h 9 (by norm_num) (by norm_num)
  have h10 := h 10 (by norm_num) (by norm_num)
  simp [detectRun, h1, h2, h3, h4, h5, h6, h7, h8, h9, h10]

/-- When the very first attempt breaks, the loop stops after one sleep with
the first driver state. -/
lemma detectRun_brk_first (before : Snapshot) (snaps : Nat → Snapshot)
    (h : detectStep before (snaps 1) 1 = StepRes.brk) :
    detectRun before snaps before 0 [1, 2, 3, 4, 5, 6, 7, 8, 9, 10] =
      (LoopExit.stopped (snaps 1), 1) := by
  simp [detectRun, h]

/-- The loop never uses more sleeps than the largest remaining attempt
index. -/
lemma detectRun_sleeps_le (before : Snapshot) (snaps : Nat → Snapshot) :
    ∀ (l : List Nat) (last : Snapshot) (done : Nat),
      (∀ i ∈ l, i ≤ 10) → done ≤ 10 →
      (detectRun before snaps last done l).2 ≤ 10 := by
  intro l
  induction l with
  | nil => intro last done _ hd; simpa [detectRun] using hd
  | cons i rest ih =>
    intro last done hl hd
    have hi : i ≤ 10 := hl i (List.mem_cons_self i rest)
    have hrest : ∀ j ∈ rest, j ≤ 10 := fun j hj => hl j (List.mem_cons_of_mem i hj)
    cases hstep : detectStep before (snaps i) i with
    | ret u => simp [detectRun, hstep, hi]
    | brk => simp [detectRun, hstep, hi]
    | cont => simpa [detectRun, hstep] using ih (snaps i) i hrest hi

/-- The sleep count of detection equals the sleep count of its loop. -/
lemma detect_sleeps (before : Snapshot) (snaps : Nat → Snapshot) :
    (detect_upload_success before snaps).2 =
      (detectRun before snaps before 0 [1, 2, 3, 4, 5, 6, 7, 8, 9, 10]).2 := by
  unfold detect_upload_success
  rcases hr : detectRun before snaps before 0 [1, 2, 3, 4, 5, 6, 7, 8, 9, 10] with ⟨ex, n⟩
  cases ex <;> simp

/-- Elapsed time of the ingest wait never exceeds 122 s when every sleep is
at most 3 s. -/
lemma wait_go_elapsed_le (found : Nat → Bool) (delay : Nat → Nat)
    (hd : ∀ j, delay j ≤ 3) :
    ∀ (fuel i e : Nat), e ≤ 122 → (wait_go found delay fuel i e).2 ≤ 122 := by
  intro fuel
  induction fuel with
  | zero => intro i e he; simpa [wait_go] using he
  | succ f ih =>
    intro i e he
    by_cases h1 : 120 ≤ e
    · simpa [wait_go, h1] using he
    · by_cases h2 : found i = true
      · simpa [wait_go, h1, h2] using he
      · have hbound : e + delay i ≤ 122 := by have := hd i; omega
        simpa [wait_go, h1, h2] using ih (i + 1) (e + delay i) hbound

/-- With sleeps of at least 2 s, 61 iterations of fuel are never exhausted:
any extra fuel leaves the result unchanged. -/
lemma wait_go_fuel_irrel (found : Nat → Bool) (delay : Nat → Nat)
    (hd : ∀ j, 2 ≤ delay j) :
    ∀ (fuel k i e : Nat), 120 ≤ e + 2 * fuel →
      wait_go found delay (fuel + k) i e = wait_go found delay fuel i e := by
  intro fuel
  induction fuel with
  | zero =>
    intro k i e he
    have h120 : 120 ≤ e := by omega
    cases k with
    | zero => rfl
    | succ k => simp [wait_go, h120]
  | succ f ih =>
    intro k i e he
    have hstep : f + 1 + k = (f + k) + 1 := by omega
    rw [hstep]
    by_cases h1 : 120 ≤ e
    · simp [wait_go, h1]
    · by_cases h2 : found i = true
      · simp [wait_go, h1, h2]
      · have hrec := ih k (i + 1) (e + delay i) (by have := hd i; omega)
        simp only [wait_go, h1, h2, if_false]
        simpa using hrec

/-- Events of the cookie-restore path never include a credential entry or a
login-button click. -/
lemma load_cookies_no_credentials (env : LoginEnv) :
    LoginEv.enterCredentials ∉ (load_cookies env).2 ∧
    LoginEv.clickLoginButton ∉ (load_cookies env).2 := by
  rcases h : env.cookieFile with _ | cookies
  · simp [load_cookies, h]
  · by_cases hc : cookies.isEmpty <;>
      simp [load_cookies, h, hc, List.mem_replicate]

/-- The login-status check performs exactly one navigation. -/
lemma check_login_status_events (env : LoginEnv) :
    (check_login_status env).2 = [LoginEv.navigateUpload] := by
  unfold check_login_status
  dsimp only
  split <;> rfl

/-! ## Claim theorems -/

/-- Claim C1, counterexample.  In a run where only one of the three priority
fields succeeds and the detection poll uses all ten attempts without any
signal, `upload_video` still reports success with the current URL and no
error, so it does not return the Failed outcome the claim requires. -/
theorem upload_quiet_ceiling_counterexample :
    priority_success_count worldQuiet = 1 ∧
    (detect_upload_success worldQuiet.before worldQuiet.snaps).2 = 10 ∧
    (upload_video worldQuiet).1.success = true ∧
    (upload_video worldQuiet).1.error = none ∧
    (upload_video worldQuiet).1.url = some "https://rumble.com/uploadstep" := by
  decide

/-- Claim C1, amended.  When the poll ceiling expires with every attempt
yielding no signal, `_detect_upload_success` still returns the current URL
(line 1288), so `upload_video` reports success with that URL regardless of
the priority-field count; no outcome-undetermined failure exists. -/
theorem upload_quiet_ceiling_returns_success (w : UploadWorld)
    (hlog : w.isLoggedIn = true) (hnav : w.navOk = true)
    (hfi : w.fileInputFound = true) (hfe : w.fileExists = true)
    (hcat : w.categoryOk = false) (hchan : w.channelOk = false)
    (hbtn : w.uploadButtonFound = true)
    (hlic : isLicensePage w.licenseSource = false)
    (hquiet : ∀ i, 1 ≤ i → i ≤ 10 → detectStep w.before (w.snaps i) i = StepRes.cont) :
    (upload_video w).1 =
      { success := true, url := some ((w.snaps 10).url), error := none,
        duration := w.elapsed } := by
  have hdet : detect_upload_success w.before w.snaps = (some ((w.snaps 10).url), 10) := by
    unfold detect_upload_success
    rw [detectRun_all_cont w.before w.snaps hquiet]
    simp [finalAssessment_eq]
  have hsub : (submit_upload_and_handle_license w).1 = some ((w.snaps 10).url) := by
    simp [submit_upload_and_handle_license, handle_license_page_and_submit, hbtn, hlic, hdet]
  simp [upload_video, hlog, hnav, hfi, hfe, hsub]

/-- Claim C1, witness for the amended statement at the concrete quiet run. -/
theorem upload_quiet_ceiling_returns_success_witness :
    (upload_video worldQuiet).1 =
      { success := true, url := some "https://rumble.com/uploadstep", error := none,
        duration := 7 } :=
  upload_quiet_ceiling_returns_success worldQuiet rfl rfl rfl rfl rfl rfl rfl
    (by decide) (by intro i h1 h2; interval_cases i <;> decide)

/-- Claim C2.  The post-submit success test of `login` (line 245) accepts any
URL containing rumble.com, so when the login page redirects back to the auth
domain the method returns true instead of the false the claim (and the
comment on lines 242-243 of the source) requires. -/
theorem login_accepts_login_domain_url :
    containsSub (strLower envAuthLoop.postSubmitUrl) "auth.rumble.com" = true ∧
    containsSub (strLower envAuthLoop.postSubmitUrl) "login" = true ∧
    (login envAuthLoop).1 = true := by
  decide

/-- Claim C3, counterexample.  A run whose file path names no existing file
still performs the upload-page navigation: the failure is reported only at
the file-submission stage, after browser navigation. -/
theorem upload_missing_file_counterexample :
    worldMissingFile.fileExists = false ∧
    UpEv.navigateUploadPage ∈ (upload_video worldMissingFile).2 ∧
    (upload_video worldMissingFile).1.success = false ∧
    (upload_video worldMissingFile).1.error = some "Failed to upload video file" := by
  decide

/-- Claim C3, amended.  `upload_video` never checks file existence; with a
missing file (and a located file input) the run fails at the file-submission
stage with the file-upload error, after the upload-page navigation already
happened. -/
theorem upload_missing_file_fails_after_navigation (w : UploadWorld)
    (hfe : w.fileExists = false) (hlog : w.isLoggedIn = true)
    (hnav : w.navOk = true) (hfi : w.fileInputFound = true) :
    (upload_video w).1 =
      { success := false, url := none, error := some "Failed to upload video file",
        duration := w.elapsed } ∧
    UpEv.navigateUploadPage ∈ (upload_video w).2 := by
  constructor
  · simp [upload_video, hlog, hnav, hfi, hfe]
  · simp [upload_video, hlog, hnav, hfi, hfe]

/-- Claim C3, witness for the amended statement. -/
theorem upload_missing_file_fails_after_navigation_witness :
    (upload_video worldMissingFile).1 =
      { success := false, url := none, error := some "Failed to upload video file",
        duration := 4 } ∧
    UpEv.navigateUploadPage ∈ (upload_video worldMissingFile).2 :=
  upload_missing_file_fails_after_navigation worldMissingFile rfl rfl rfl rfl

/-- Claim C4, counterexample.  A run whose title fill fails still submits the
form and reports success: line 333 discards the result of
`_fill_title_only`. -/
theorem upload_title_failure_counterexample :
    worldTitleFail.titleOk = false ∧
    fill_title_only worldTitleFail.titleOk = false ∧
    (upload_video worldTitleFail).1.success = true ∧
    (upload_video worldTitleFail).1.error = none ∧
    UpEv.clickUploadButton ∈ (upload_video worldTitleFail).2 := by
  decide

/-- Claim C4, amended.  A failed title fill does not abort the run:
`upload_video` ignores the result of `_fill_title_only`, proceeds to form
submission, and reports success whenever submission yields a URL; no
title-fill failure reason exists. -/
theorem upload_title_failure_not_fatal (w : UploadWorld) (u : String)
    (htitle : w.titleOk = false)
    (hlog : w.isLoggedIn = true) (hnav : w.navOk = true)
    (hfi : w.fileInputFound = true) (hfe : w.fileExists = true)
    (hs : (submit_upload_and_handle_license w).1 = some u) :
    (upload_video w).1 =
      { success := true, url := some u, error := none, duration := w.elapsed } ∧
    UpEv.clickUploadButton ∈ (upload_video w).2 ∧
    fill_title_only w.titleOk = false := by
  have hb : w.uploadButtonFound = true := by
    by_cases hb : w.uploadButtonFound = true
    · exact hb
    · exfalso
      have hnone : (submit_upload_and_handle_license w).1 = none := by
        simp [submit_upload_and_handle_license, hb]
      rw [hnone] at hs
      exact Option.noConfusion hs
  have hh : (handle_license_page_and_submit w).1 = some u := by
    have heq : (submit_upload_and_handle_license w).1 = (handle_license_page_and_submit w).1 := by
      simp [submit_upload_and_handle_license, hb]
    rw [heq] at hs
    exact hs
  refine ⟨?_, ?_, by simp [fill_title_only, htitle]⟩
  · simp [upload_video, hlog, hnav, hfi, hfe, hs]
  · simp [upload_video, hlog, hnav, hfi, hfe, submit_upload_and_handle_license, hb, hh]

/-- Claim C4, witness for the amended statement. -/
theorem upload_title_failure_not_fatal_witness :
    (upload_video worldTitleFail).1 =
      { success := true, url := some "https://rumble.com/v12345-test.html",
        error := none, duration := 5 } ∧
    UpEv.clickUploadButton ∈ (upload_video worldTitleFail).2 ∧
    fill_title_only worldTitleFail.titleOk = false :=
  upload_title_failure_not_fatal worldTitleFail "https://rumble.com/v12345-test.html"
    rfl rfl rfl rfl rfl (by decide)

/-- Claim C5, counterexample.  A run whose first detection attempt sees an
error marker in URL and title is still reported as a success with the
current URL: the marker only breaks the polling loop, and the final
assessment of line 1288 returns the URL anyway. -/
theorem upload_error_marker_counterexample :
    containsSub (strLower (worldError.snaps 1).url) "error" = true ∧
    containsSub (strLower (worldError.snaps 1).title) "error" = true ∧
    (upload_video worldError).1.success = true ∧
    (upload_video worldError).1.error = none ∧
    (upload_video worldError).1.url = some "https://rumble.com/uploaderror" := by
  decide

/-- Claim C5, amended.  An explicit error marker in URL or title only stops
the polling early; `_detect_upload_success` still returns the current URL
and `upload_video` reports success with it, never a platform-error
failure. -/
theorem upload_error_marker_still_success (w : UploadWorld)
    (hlog : w.isLoggedIn = true) (hnav : w.navOk = true)
    (hfi : w.fileInputFound = true) (hfe : w.fileExists = true)
    (hbtn : w.uploadButtonFound = true)
    (hlic : isLicensePage w.licenseSource = false)
    (herr : containsSub (strLower (w.snaps 1).url) "error" = true ∨
            containsSub (strLower (w.snaps 1).title) "error" = true)
    (hbrk : detectStep w.before (w.snaps 1) 1 = StepRes.brk) :
    (upload_video w).1 =
      { success := true, url := some ((w.snaps 1).url), error := none,
        duration := w.elapsed } := by
  have hdet : detect_upload_success w.before w.snaps = (some ((w.snaps 1).url), 1) := by
    unfold detect_upload_success
    rw [detectRun_brk_first w.before w.snaps hbrk]
    simp [finalAssessment_eq]
  have hsub : (submit_upload_and_handle_license w).1 = some ((w.snaps 1).url) := by
    simp [submit_upload_and_handle_license, handle_license_page_and_submit, hbtn, hlic, hdet]
  simp [upload_video, hlog, hnav, hfi, hfe, hsub]

/-- Claim C5, witness for the amended statement. -/
theorem upload_error_marker_still_success_witness :
    (upload_video worldError).1 =
      { success := true, url := some "https://rumble.com/uploaderror", error := none,
        duration := 9 } :=
  upload_error_marker_still_success worldError rfl rfl rfl rfl rfl (by decide)
    (Or.inl (by decide)) (by decide)

/-- Claim C6.  Every result of `upload_video` has exactly one of the two
terminal shapes: success with a URL and no error, or failure with an error
and no URL; the duration field is set on every path. -/
theorem upload_result_two_shapes (w : UploadWorld) :
    (∃ u, (upload_video w).1 =
      { success := true, url := some u, error := none, duration := w.elapsed }) ∨
    (∃ e, (upload_video w).1 =
      { success := false, url := none, error := some e, duration := w.elapsed }) := by
  by_cases h1 : (!w.isLoggedIn && !(login w.loginEnv).1) = true
  · exact Or.inr ⟨"Failed to login to Rumble", by simp [upload_video, h1]⟩
  · by_cases h2 : (!w.navOk) = true
    · exact Or.inr ⟨"Failed to navigate to upload page", by simp [upload_video, h1, h2]⟩
    · by_cases h3 : (!(w.fileInputFound && w.fileExists)) = true
      · exact Or.inr ⟨"Failed to upload video file", by simp [upload_video, h1, h2, h3]⟩
      · rcases hs : (submit_upload_and_handle_license w).1 with _ | u
        · by_cases h4 : 2 ≤ priority_success_count w
          · exact Or.inl ⟨w.currentUrl, by simp [upload_video, h1, h2, h3, hs, h4]⟩
          · exact Or.inr ⟨"Failed to complete upload process",
              by simp [upload_video, h1, h2, h3, hs, h4]⟩
        · exact Or.inl ⟨u, by simp [upload_video, h1, h2, h3, hs]⟩

/-- Claim C7.  Without license markers in the page source, the license
handler goes straight to outcome detection: its only event is the detection
call, it returns the detection result, and no agreement checkbox is
touched. -/
theorem license_absent_skips_checkboxes (w : UploadWorld)
    (hl : isLicensePage w.licenseSource = false) :
    (handle_license_page_and_submit w).2 = [UpEv.detectOutcome] ∧
    (handle_license_page_and_submit w).1 = (detect_upload_success w.before w.snaps).1 ∧
    (∀ s, UpEv.checkAgreementBox s ∉ (handle_license_page_and_submit w).2) := by
  refine ⟨by simp [handle_license_page_and_submit, hl],
    by simp [handle_license_page_and_submit, hl], ?_⟩
  intro s
  simp [handle_license_page_and_submit, hl]

/-- Claim C7, witness at the concrete quiet run, whose page has no license
markers. -/
theorem license_absent_skips_checkboxes_witness :
    (handle_license_page_and_submit worldQuiet).2 = [UpEv.detectOutcome] ∧
    (handle_license_page_and_submit worldQuiet).1 =
      (detect_upload_success worldQuiet.before worldQuiet.snaps).1 ∧
    (∀ s, UpEv.checkAgreementBox s ∉ (handle_license_page_and_submit worldQuiet).2) :=
  license_absent_skips_checkboxes worldQuiet (by decide)

/-- Claim C8.  With a valid cached session (cookies load and the status
check accepts), `login` returns true and two successive calls perform no
credential entry and no login-button click at all. -/
theorem login_cached_session_idempotent (env : LoginEnv)
    (h1 : (load_cookies env).1 = true) (h2 : (check_login_status env).1 = true) :
    (login env).1 = true ∧
    LoginEv.enterCredentials ∉ loginTwiceEvents env ∧
    LoginEv.clickLoginButton ∉ loginTwiceEvents env := by
  have hev : (login env).2 = (load_cookies env).2 ++ (check_login_status env).2 := by
    simp [login, h1, h2]
  refine ⟨by simp [login, h1, h2], ?_, ?_⟩
  · unfold loginTwiceEvents
    rw [hev, check_login_status_events]
    simp [(load_cookies_no_credentials env).1]
  · unfold loginTwiceEvents
    rw [hev, check_login_status_events]
    simp [(load_cookies_no_credentials env).2]

/-- Claim C8, witness at the concrete cached-session environment. -/
theorem login_cached_session_idempotent_witness :
    (login envCached).1 = true ∧
    LoginEv.enterCredentials ∉ loginTwiceEvents envCached ∧
    LoginEv.clickLoginButton ∉ loginTwiceEvents envCached :=
  login_cached_session_idempotent envCached (by decide) (by decide)

/-- Claim C9.  Outcome detection performs at most ten 3-second sleeps, so
its polling time is at most the 30 s ceiling; the ingest wait never exceeds
its 120 s ceiling by more than one 3 s sleep, and with sleeps of at least
2 s its 61 iterations of fuel are never exhausted, so the loop terminates
within the ceiling for any amount of extra fuel. -/
theorem polling_loops_bounded (before : Snapshot) (snaps : Nat → Snapshot)
    (found : Nat → Bool) (delay : Nat → Nat)
    (hlow : ∀ j, 2 ≤ delay j) (hhigh : ∀ j, delay j ≤ 3) :
    (detect_upload_success before snaps).2 ≤ 10 ∧
    3 * (detect_upload_success before snaps).2 ≤ 30 ∧
    (wait_for_upload_completion found delay).2 ≤ 120 + 3 ∧
    (∀ k, wait_go found delay (61 + k) 0 0 = wait_for_upload_completion found delay) := by
  have hn : (detect_upload_success before snaps).2 ≤ 10 := by
    rw [detect_sleeps]
    exact detectRun_sleeps_le before snaps _ before 0 (by decide) (by norm_num)
  refine ⟨hn, by omega, ?_, ?_⟩
  · have := wait_go_elapsed_le found delay hhigh 61 0 0 (by norm_num)
    unfold wait_for_upload_completion
    omega
  · intro k
    unfold wait_for_upload_completion
    exact wait_go_fuel_irrel found delay hlow 61 k 0 0 (by norm_num)

/-- Claim C9, witness at a run with no signal and constant 2 s sleeps. -/
theorem polling_loops_bounded_witness :
    (detect_upload_success quietSnap (fun _ => quietSnap)).2 ≤ 10 ∧
    3 * (detect_upload_success quietSnap (fun _ => quietSnap)).2 ≤ 30 ∧
    (wait_for_upload_completion (fun _ => false) (fun _ => 2)).2 ≤ 120 + 3 ∧
    (∀ k, wait_go (fun _ => false) (fun _ => 2) (61 + k) 0 0 =
      wait_for_upload_completion (fun _ => false) (fun _ => 2)) :=
  polling_loops_bounded quietSnap (fun _ => quietSnap) (fun _ => false) (fun _ => 2)
    (fun _ => by norm_num) (fun _ => by norm_num)

/-- Claim C10.  When neither a visibility radio nor a visibility dropdown is
displayed, `_set_visibility` returns true without any interaction, and the
priority success count therefore includes visibility as a success. -/
theorem visibility_missing_counts_as_success (w : UploadWorld)
    (hr : w.visPage.radioDisplayed = false) (hd : w.visPage.dropdownDisplayed = false) :
    set_visibility w.visPage = (true, []) ∧
    priority_success_count w =
      (if w.categoryOk then 1 else 0) + (if w.channelOk then 1 else 0) + 1 := by
  constructor
  · simp [set_visibility, hr, hd]
  · simp [priority_success_count, set_visibility, hr, hd]

/-- Claim C10, witness at the concrete quiet run, whose page offers no
visibility control. -/
theorem visibility_missing_counts_as_success_witness :
    set_visibility worldQuiet.visPage = (true, []) ∧
    priority_success_count worldQuiet = 1 := by
  have h := visibility_missing_counts_as_success worldQuiet rfl rfl
  exact ⟨h.1, by rw [h.2]; decide⟩

end RumbleBot
